import Mathlib

/-!
Shallow embedding of the ranked-bot core (src/app/bot/bot.py):
rank table, MMR configuration, scenario and map catalogs, the MMR delta
computation, and the persistence-level operations (registration, match
settlement, season reset) as explicit state transformers over a record of
the SQLite tables. Python integers are modelled as `Int`, Python float
arithmetic as exact rationals `ℚ`, and `int(x)` as truncation toward zero.
-/

namespace RankedBot

/-- The RANKS table of bot.py: (threshold, label) pairs, scanned top-down.
The fallback threshold is `-10**9`. -/
def RANKS : List (Int × String) :=
  [(2500, "🔥 Alpha-Z"),
   (2000, "🧌 Mutant"),
   (1500, "🧟 Zombie"),
   (1000, "🪦 Survivant"),
   (-1000000000, "🌿 Novice")]

/-- The function `get_rank`: first entry whose threshold is ≤ mmr; fallback is the last label. -/
def get_rank (mmr : Int) : String :=
  match RANKS.find? (fun p => decide (p.1 ≤ mmr)) with
  | some p => p.2
  | none => ((RANKS.getLast?).map Prod.snd).getD ""

/-- Threshold associated to a rank label, read back from the RANKS table. -/
def rank_threshold (label : String) : Int :=
  (((RANKS.find? (fun p => p.2 == label)).map Prod.fst).getD (-1000000000))

/-- The nested MMR_CFG dict of bot.py as an association list. -/
def MMR_CFG : List (String × List (String × Int)) :=
  [("humain",
    [("win_survivor", 30), ("survive_on_loss", 10), ("kill", 2), ("assist", 1),
     ("survival_time_step", 20), ("survival_time_cap", 10), ("team_loss_penalty", -15)]),
   ("firstz",
    [("team_win_bonus", 25), ("team_loss_penalty", -15), ("kill", 3)]),
   ("infected",
    [("base_loss", -5), ("kill", 3), ("dmg_step", 15), ("dmg_cap", 100)])]

/-- Lookup of `MMR_CFG[role][key]`. -/
def cfgGet (role key : String) : Int :=
  match MMR_CFG.find? (fun p => p.1 == role) with
  | some p => (((p.2.find? (fun q => q.1 == key)).map Prod.snd).getD 0)
  | none => 0

/-- SCENARIOS: name ↦ balance score (negative favors zombies, positive humans). -/
def SCENARIOS : List (String × Int) :=
  [("NoHeal", -3), ("Mutation", -3), ("Vampire", -3),
   ("Punch", -2), ("ProtectTheKing", -2), ("DoubleTranchant", -2), ("Bomb", -2),
   ("Glowing", -1), ("CAC", -1), ("Rush", -1),
   ("InitialD", 0), ("Swap", 0),
   ("BlackOut", 1), ("ScénarioChoose", 1), ("DoubleCoeur", 1), ("DernierSurvivant", 1),
   ("LuckyShoot", 2), ("Sacrifice", 2),
   ("Invisible", 3), ("IEM", 3), ("MapRDM", 3)]

/-- Lookup `SCENARIOS.get(s, 0)` — unknown scenario names score 0. -/
def scenarioScore (s : String) : Int :=
  (((SCENARIOS.find? (fun p => p.1 == s)).map Prod.snd).getD 0)

/-- MAPS: map name ↦ size class ("small" / "mid" / "large"). -/
def MAPS : List (String × String) :=
  [("ByteVault", "small"), ("Vertigo", "small"), ("Volcano", "small"),
   ("Kermor", "small"), ("Museum", "small"), ("Dome", "small"),
   ("EgoutZ", "small"), ("Mirage", "small"), ("Bayfront", "small"),
   ("Frozen", "mid"), ("Ravin", "mid"), ("Nature", "mid"), ("SquareT", "mid"),
   ("Inferno", "mid"), ("Aztec", "mid"), ("Osthera", "mid"), ("Parc", "mid"),
   ("Manoir", "mid"), ("Melted", "mid"), ("Harran", "mid"), ("Split", "mid"),
   ("Strell", "mid"),
   ("Port", "large"), ("Colisé", "large"), ("Whitewood", "large"),
   ("Villa", "large"), ("Costa", "large"), ("Nuke", "large"), ("Menos", "large"),
   ("Canyon", "large"), ("PlageCheepCheep", "large"), ("BlockFort", "large")]

/-- Lookup `MAPS[name]`, `none` when the name is not a key. -/
def mapSize (m : String) : Option String :=
  ((MAPS.find? (fun p => p.1 == m)).map Prod.snd)

/-- Python `int(x)` on a float value: truncation toward zero. -/
def ratTrunc (q : ℚ) : Int :=
  if q < 0 then -((-q).floor) else q.floor

/-- The role-conditional base MMR of `calculate_mmr` (lines 333–357). -/
def base_mmr_calc (role winner : String) (is_survivor : Bool)
    (kills assists dmg survival_time : Int) : Int :=
  if role = "humain" then
    (if winner = "humains" ∧ is_survivor then cfgGet "humain" "win_survivor"
     else if is_survivor then cfgGet "humain" "survive_on_loss" else 0)
    + kills * cfgGet "humain" "kill"
    + assists * cfgGet "humain" "assist"
    + min (Int.fdiv survival_time (cfgGet "humain" "survival_time_step"))
        (cfgGet "humain" "survival_time_cap")
    + (if winner = "zombies" then cfgGet "humain" "team_loss_penalty" else 0)
  else if role = "firstz" then
    (if winner = "zombies" then cfgGet "firstz" "team_win_bonus"
     else cfgGet "firstz" "team_loss_penalty")
    + kills * cfgGet "firstz" "kill"
  else if role = "infected" then
    cfgGet "infected" "base_loss"
    + kills * cfgGet "infected" "kill"
    + Int.fdiv (min dmg (cfgGet "infected" "dmg_cap")) (cfgGet "infected" "dmg_step")
  else 0

/-- Mean balance score of the selected scenarios (`sum(valid) / len(valid)`). -/
def scenario_factor (l : List String) : ℚ :=
  (((l.map scenarioScore).sum : Int) : ℚ) / ((l.length : Int) : ℚ)

/-- The scenario weighting step of `calculate_mmr` (lines 360–368).
An absent or empty scenario list leaves the base unchanged. -/
def scenario_adjust (base : Int) (winner : String)
    (scenarios : Option (List String)) : ℚ :=
  match scenarios with
  | none => (base : ℚ)
  | some l =>
    if l = [] then (base : ℚ)
    else
      if scenario_factor l > 0 ∧ winner = "zombies" then
        (base : ℚ) * (1 + scenario_factor l / 20)
      else if scenario_factor l < 0 ∧ winner = "humains" then
        (base : ℚ) * (1 + |scenario_factor l| / 20)
      else (base : ℚ)

/-- The map-size weighting step of `calculate_mmr` (lines 371–378). -/
def map_adjust (q : ℚ) (winner : String) (map_name : Option String) : ℚ :=
  match map_name with
  | none => q
  | some m =>
    if m = "" then q
    else
      match mapSize m with
      | none => q
      | some size =>
        if size = "small" then q * (if winner = "humains" then 105 / 100 else 95 / 100)
        else if size = "large" then q * (if winner = "zombies" then 105 / 100 else 95 / 100)
        else q

/-- The function `calculate_mmr`: base computation, scenario weighting, map weighting,
then `int(...)` truncation toward zero. -/
def calculate_mmr (role winner : String) (is_survivor : Bool)
    (kills assists dmg survival_time : Int)
    (scenarios : Option (List String)) (map_name : Option String) : Int :=
  ratTrunc (map_adjust
    (scenario_adjust (base_mmr_calc role winner is_survivor kills assists dmg survival_time)
      winner scenarios)
    winner map_name)

/-! ## Persistence model

The SQLite tables of bot.py as plain lists, and the stateful operations
(`upsert_player`, `resetseason`, `finalize_match`) as state transformers. -/

/-- One row of the `players` table, with the schema defaults of `init_db`. -/
structure PlayerRec where
  discord_id : Int
  minecraft_name : String
  mmr : Int
  wins_humain : Int
  wins_zombie : Int
  losses : Int
  kills_zombie : Int
  kills_humain : Int
  assists : Int
  dmg_dealt : Int
  survival_time_best : Int
  survival_time_avg : Int
  last_change : Int
  season_id : Int
  active_ranked : Int
deriving Repr, DecidableEq

/-- One row of the `matches` table. -/
structure MatchRec where
  match_id : Nat
  winner : String
deriving Repr, DecidableEq

/-- One row of the `match_players` table. -/
structure MatchPlayerRec where
  match_id : Nat
  discord_id : Int
  role : String
  kills : Int
  dmg : Int
  mmr_change : Int
  survivor : Int
deriving Repr, DecidableEq

/-- The database: the three tables bot.py writes to. -/
structure DB where
  players : List PlayerRec
  matches' : List MatchRec
  match_players : List MatchPlayerRec
deriving Repr, DecidableEq

/-- Python dict lookup on an association list built by insertion order:
a later binding of the same key overwrites an earlier one. -/
def dictFind {α : Type} (l : List (String × α)) (key : String) : Option α :=
  ((l.reverse.find? (fun p => p.1 == key)).map Prod.snd)

/-- Python `dict.get(key, dflt)`. -/
def dictGetD {α : Type} (l : List (String × α)) (key : String) (dflt : α) : α :=
  (dictFind l key).getD dflt

/-- The `name_to_data` dict of `finalize_match`: minecraft name ↦ player row
(later rows overwrite earlier rows with the same name). -/
def name_to_data (ps : List PlayerRec) (name : String) : Option PlayerRec :=
  ps.reverse.find? (fun p => p.minecraft_name == name)

/-- Registration `upsert_player`: INSERT with schema defaults; an existing primary key
(discord_id) raises IntegrityError, reported as `false`. -/
def upsert_player (db : DB) (discord_id : Int) (minecraft_name : String) :
    DB × Bool :=
  if db.players.any (fun p => p.discord_id == discord_id) then (db, false)
  else
    ({ db with players := db.players ++
        [{ discord_id := discord_id, minecraft_name := minecraft_name,
           mmr := 1000, wins_humain := 0, wins_zombie := 0, losses := 0,
           kills_zombie := 0, kills_humain := 0, assists := 0, dmg_dealt := 0,
           survival_time_best := 0, survival_time_avg := 0, last_change := 0,
           season_id := 1, active_ranked := 1 }] }, true)

/-- The query `SELECT MAX(season_id) FROM players` followed by Python `... or 1`. -/
def current_season (db : DB) : Int :=
  match (db.players.map PlayerRec.season_id).max? with
  | none => 1
  | some v => if v = 0 then 1 else v

/-- The `resetseason` admin command (lines 1154–1174): bump the season and
reset every player's MMR, last delta and counters, keeping identity, name
and the active_ranked flag. -/
def resetseason (db : DB) : DB × Int :=
  let new_season := current_season db + 1
  ({ db with players := db.players.map (fun p =>
      { p with
        mmr := 1000
        last_change := 0
        wins_humain := 0
        wins_zombie := 0
        losses := 0
        kills_zombie := 0
        kills_humain := 0
        assists := 0
        dmg_dealt := 0
        survival_time_best := 0
        survival_time_avg := 0
        season_id := new_season }) }, new_season)

/-- The helper `update_player` (lines 265–290): relative UPDATE of the row whose
discord_id matches. -/
def update_player (ps : List PlayerRec) (discord_id : Int)
    (mmr_change wins_h wins_z losses kills_z kills_h assists dmg : Int) :
    List PlayerRec :=
  ps.map (fun p =>
    if p.discord_id = discord_id then
      { p with
        mmr := p.mmr + mmr_change
        last_change := mmr_change
        wins_humain := p.wins_humain + wins_h
        wins_zombie := p.wins_zombie + wins_z
        losses := p.losses + losses
        kills_zombie := p.kills_zombie + kills_z
        kills_humain := p.kills_humain + kills_h
        assists := p.assists + assists
        dmg_dealt := p.dmg_dealt + dmg }
    else p)

/-- One entry of the settlement summary built by `finalize_match`:
either the chill-mode note or a processed participant's line. -/
inductive Outcome where
  | chill (name : String)
  | updated (name : String) (role : String) (kills dmg change : Int)
deriving Repr, DecidableEq

/-- The body of the per-participant loop of `finalize_match`
(lines 614–674), acting on the accumulated database and summary lines.
`snapshot` is the `name_to_data` mapping taken before the loop. -/
def finalize_step (snapshot : List PlayerRec) (roles : List (String × String))
    (kills dmg : List (String × Int)) (scenarios : Option (List String))
    (map_name : Option String) (winner : String) (match_id : Nat)
    (acc : DB × List Outcome) (name : String) : DB × List Outcome :=
  match name_to_data snapshot name with
  | none => acc
  | some pd =>
    if pd.active_ranked = 0 then
      (acc.1, acc.2 ++ [Outcome.chill name])
    else
      let role := dictGetD roles name "humain"
      let is_survivor := role == "humain"
      let k := dictGetD kills name 0
      let d := dictGetD dmg name 0
      let change := calculate_mmr role winner is_survivor k 0 d 0 scenarios map_name
      let wins_h : Int :=
        if role = "humain" ∧ winner = "humains" ∧ is_survivor then 1 else 0
      let wins_z : Int := if role = "firstz" ∧ winner = "zombies" then 1 else 0
      let losses : Int :=
        if (role = "humain" ∧ winner = "zombies") ∨
           ((role = "infected" ∨ role = "firstz") ∧ winner = "humains") then 1 else 0
      let kills_z : Int := if role = "infected" ∨ role = "firstz" then k else 0
      let kills_h : Int := if role = "humain" then k else 0
      ({ acc.1 with
         players := update_player acc.1.players pd.discord_id change
           wins_h wins_z losses kills_z kills_h 0 d,
         match_players := acc.1.match_players ++
           [{ match_id := match_id, discord_id := pd.discord_id, role := role,
              kills := k, dmg := d, mmr_change := change,
              survivor := if is_survivor then 1 else 0 }] },
       acc.2 ++ [Outcome.updated name role k d change])

/-- The function `finalize_match` (lines 590–674): compute the winner, insert one match
row, then settle every participant in order. Returns the new database and
the settlement summary. -/
def finalize_match (db : DB) (players : List String)
    (roles : List (String × String)) (kills dmg : List (String × Int))
    (scenarios : Option (List String)) (map_name : Option String) :
    DB × List Outcome :=
  let winner :=
    if (roles.map Prod.snd).any (fun r => r == "humain") then "humains"
    else "zombies"
  let snapshot := db.players
  let match_id := db.matches'.length + 1
  let db1 := { db with matches' := db.matches' ++ [{ match_id := match_id, winner := winner }] }
  players.foldl
    (finalize_step snapshot roles kills dmg scenarios map_name winner match_id)
    (db1, [])

end RankedBot

namespace RankedBot

/-- Closed form of `get_rank` over the five threshold intervals. -/
theorem get_rank_eq (mmr : Int) :
    get_rank mmr =
      if 2500 ≤ mmr then "🔥 Alpha-Z"
      else if 2000 ≤ mmr then "🧌 Mutant"
      else if 1500 ≤ mmr then "🧟 Zombie"
      else if 1000 ≤ mmr then "🪦 Survivant"
      else "🌿 Novice" := by
  unfold get_rank RANKS
  by_cases h1 : 2500 ≤ mmr
  · rw [List.find?_cons_of_pos _ (by simpa using h1), if_pos h1]
  · rw [List.find?_cons_of_neg _ (by simpa using h1), if_neg h1]
    by_cases h2 : 2000 ≤ mmr
    · rw [List.find?_cons_of_pos _ (by simpa using h2), if_pos h2]
    · rw [List.find?_cons_of_neg _ (by simpa using h2), if_neg h2]
      by_cases h3 : 1500 ≤ mmr
      · rw [List.find?_cons_of_pos _ (by simpa using h3), if_pos h3]
      · rw [List.find?_cons_of_neg _ (by simpa using h3), if_neg h3]
        by_cases h4 : 1000 ≤ mmr
        · rw [List.find?_cons_of_pos _ (by simpa using h4), if_pos h4]
        · rw [List.find?_cons_of_neg _ (by simpa using h4), if_neg h4]
          by_cases h5 : (-1000000000 : Int) ≤ mmr
          · rw [List.find?_cons_of_pos _ (by simpa using h5)]
          · rw [List.find?_cons_of_neg _ (by simpa using h5)]
            simp [List.find?]

/-- C1 counterexample: the code classifies 2000 as Mutant (not Apocalypse)
and 1600 as Zombie (not Mutant). -/
theorem claim_C1_counterexample :
    get_rank 2000 = "🧌 Mutant" ∧ get_rank 1600 = "🧟 Zombie" ∧
    ("🧟 Zombie" : String) ≠ "🧌 Mutant" ∧ ("🧌 Mutant" : String) ≠ "🔥 Alpha-Z" := by
  refine ⟨by decide, by decide, by decide, by decide⟩

/-- C1 (amended): in the code's rank table, every mmr with 2000 ≤ mmr ≤ 2499 is
classified as the Mutant label and every mmr with 1500 ≤ mmr ≤ 1999 as the
Zombie label (there is no Apocalypse tier). -/
theorem claim_C1_rank_table (mmr : Int) :
    (2000 ≤ mmr → mmr ≤ 2499 → get_rank mmr = "🧌 Mutant") ∧
    (1500 ≤ mmr → mmr ≤ 1999 → get_rank mmr = "🧟 Zombie") := by
  rw [get_rank_eq]
  constructor <;> intro ha hb <;> split_ifs <;> first | rfl | omega

theorem claim_C1_witness :
    ((2000:Int) ≤ 2100 ∧ (2100:Int) ≤ 2499 ∧ get_rank 2100 = "🧌 Mutant") ∧
    ((1500:Int) ≤ 1700 ∧ (1700:Int) ≤ 1999 ∧ get_rank 1700 = "🧟 Zombie") :=
  ⟨⟨by decide, by decide, (claim_C1_rank_table 2100).1 (by decide) (by decide)⟩,
   ⟨by decide, by decide, (claim_C1_rank_table 1700).2 (by decide) (by decide)⟩⟩

theorem rank_threshold_alpha : rank_threshold "🔥 Alpha-Z" = 2500 := by decide
theorem rank_threshold_mutant : rank_threshold "🧌 Mutant" = 2000 := by decide
theorem rank_threshold_zombie : rank_threshold "🧟 Zombie" = 1500 := by decide
theorem rank_threshold_survivant : rank_threshold "🪦 Survivant" = 1000 := by decide
theorem rank_threshold_novice : rank_threshold "🌿 Novice" = -1000000000 := by decide

/-- C10: the rank classification is monotone — for mmr1 ≤ mmr2 the threshold of
the label returned for mmr1 is at most the threshold of the label returned
for mmr2; raising MMR never demotes the rank. -/
theorem claim_C10_rank_monotone (m1 m2 : Int) (h : m1 ≤ m2) :
    rank_threshold (get_rank m1) ≤ rank_threshold (get_rank m2) := by
  rw [get_rank_eq m1, get_rank_eq m2]
  split_ifs <;>
    simp only [rank_threshold_alpha, rank_threshold_mutant, rank_threshold_zombie,
      rank_threshold_survivant, rank_threshold_novice] <;>
    omega

theorem claim_C10_witness :
    (1000 : Int) ≤ 2300 ∧
    rank_threshold (get_rank 1000) ≤ rank_threshold (get_rank 2300) :=
  ⟨by decide, claim_C10_rank_monotone 1000 2300 (by decide)⟩

end RankedBot

namespace RankedBot

/-- C8: for role = other infected, winner = infected side, 2 kills, 40 damage,
no scenarios and no map, the MMR delta is exactly 3
(base loss −5, plus 2·3 for kills, plus floor(min(40,100)/15) = 2). -/
theorem claim_C8_infected_example :
    calculate_mmr "infected" "zombies" false 2 0 40 0 none none = 3 := by decide

theorem scenario_adjust_zero (winner : String) (sc : Option (List String)) :
    scenario_adjust 0 winner sc = 0 := by
  rcases sc with _ | l
  · rfl
  · simp only [scenario_adjust]
    split_ifs <;> simp

theorem map_adjust_zero (winner : String) (mp : Option String) :
    map_adjust 0 winner mp = 0 := by
  rcases mp with _ | m
  · rfl
  · simp only [map_adjust]
    rcases h : mapSize m with _ | size <;> simp only [h] <;> split_ifs <;> simp

theorem ratTrunc_zero : ratTrunc 0 = 0 := by decide

/-- C9: for any role string outside the three known roles, `calculate_mmr`
returns exactly 0 for all other inputs — the scenario and map multipliers
preserve a zero base. -/
theorem claim_C9_unknown_role (role winner : String) (surv : Bool)
    (kills assists dmg survival_time : Int)
    (sc : Option (List String)) (mp : Option String)
    (h1 : role ≠ "humain") (h2 : role ≠ "firstz") (h3 : role ≠ "infected") :
    calculate_mmr role winner surv kills assists dmg survival_time sc mp = 0 := by
  unfold calculate_mmr base_mmr_calc
  rw [if_neg h1, if_neg h2, if_neg h3, scenario_adjust_zero, map_adjust_zero, ratTrunc_zero]

theorem claim_C9_witness :
    calculate_mmr "spectateur" "humains" true 7 8 90 100
      (some ["NoHeal", "IEM"]) (some "Vertigo") = 0 :=
  claim_C9_unknown_role "spectateur" "humains" true 7 8 90 100
    (some ["NoHeal", "IEM"]) (some "Vertigo") (by decide) (by decide) (by decide)

/-- C2: for a non-empty scenario list with arithmetic mean m of balance scores
(unknown names scoring 0): if m > 0 and the infected side won, the base is
multiplied by (1 + m/20); if m < 0 and the defender side won, by (1 + |m|/20);
in every other combination (including m = 0, an absent or an empty list) the
base is unchanged by the scenario adjustment. -/
theorem claim_C2_scenario_weighting (base : Int) (winner : String) (l : List String)
    (hne : l ≠ []) :
    (scenario_factor l > 0 ∧ winner = "zombies" →
        scenario_adjust base winner (some l) =
          (base : ℚ) * (1 + scenario_factor l / 20)) ∧
    (scenario_factor l < 0 ∧ winner = "humains" →
        scenario_adjust base winner (some l) =
          (base : ℚ) * (1 + |scenario_factor l| / 20)) ∧
    (¬(scenario_factor l > 0 ∧ winner = "zombies") →
      ¬(scenario_factor l < 0 ∧ winner = "humains") →
        scenario_adjust base winner (some l) = (base : ℚ)) ∧
    scenario_adjust base winner none = (base : ℚ) ∧
    scenario_adjust base winner (some []) = (base : ℚ) := by
  simp only [scenario_adjust]
  rw [if_neg hne]
  refine ⟨?_, ?_, ?_, by trivial, by simp⟩
  · intro h; rw [if_pos h]
  · intro h
    rw [if_neg (by rintro ⟨hgt, _⟩; exact absurd h.1 (lt_asymm hgt)), if_pos h]
  · intro hA hB; rw [if_neg hA, if_neg hB]

theorem scenario_factor_invisible : scenario_factor ["Invisible"] = 3 := by
  norm_num [scenario_factor, show scenarioScore "Invisible" = 3 from by decide]

theorem claim_C2_witness :
    scenario_adjust 20 "zombies" (some ["Invisible"]) =
      (20 : ℚ) * (1 + scenario_factor ["Invisible"] / 20) :=
  (claim_C2_scenario_weighting 20 "zombies" ["Invisible"] (by decide)).1
    ⟨by rw [scenario_factor_invisible]; norm_num, rfl⟩

end RankedBot

namespace RankedBot

theorem rat_floor_eq_intFloor (q : ℚ) : q.floor = ⌊q⌋ := by
  rw [Rat.floor_def', Rat.floor_def]

theorem mapSize_key_ne_empty (m size : String) (h : mapSize m = some size) :
    m ≠ "" := by
  unfold mapSize at h
  rcases hf : MAPS.find? (fun p => p.1 == m) with _ | p
  · rw [hf] at h; simp at h
  · have hp := List.find?_some hf
    have hmem := List.mem_of_find?_eq_some hf
    have hkeys : ∀ r ∈ MAPS, r.1 ≠ "" := by decide
    have h1 : p.1 = m := by simpa using hp
    rw [← h1]
    exact hkeys p hmem

/-- C3: a small map multiplies the running value by 1.05 on a defender win and
0.95 on an infected win; a large map does the opposite; mid-size or
unrecognized maps apply no adjustment; `calculate_mmr` composes scenario then
map adjustment and truncates the final value toward zero (floor for
nonnegative values, ceiling for negative ones — truncation, not rounding). -/
theorem claim_C3_map_weighting :
    (∀ (q : ℚ) (m : String), mapSize m = some "small" →
        map_adjust q "humains" (some m) = q * (105 / 100) ∧
        map_adjust q "zombies" (some m) = q * (95 / 100)) ∧
    (∀ (q : ℚ) (m : String), mapSize m = some "large" →
        map_adjust q "zombies" (some m) = q * (105 / 100) ∧
        map_adjust q "humains" (some m) = q * (95 / 100)) ∧
    (∀ (q : ℚ) (w m : String), mapSize m = some "mid" → map_adjust q w (some m) = q) ∧
    (∀ (q : ℚ) (w m : String), mapSize m = none → map_adjust q w (some m) = q) ∧
    (∀ (q : ℚ) (w : String), map_adjust q w none = q) ∧
    (∀ (role winner : String) (surv : Bool) (kills assists dmg st : Int)
        (sc : Option (List String)) (mp : Option String),
        calculate_mmr role winner surv kills assists dmg st sc mp =
          ratTrunc (map_adjust (scenario_adjust
            (base_mmr_calc role winner surv kills assists dmg st) winner sc) winner mp)) ∧
    (∀ q : ℚ, 0 ≤ q → ratTrunc q = ⌊q⌋) ∧
    (∀ q : ℚ, q < 0 → ratTrunc q = ⌈q⌉) := by
  refine ⟨?_, ?_, ?_, ?_, fun q w => rfl, fun role winner surv k a d st sc mp => rfl, ?_, ?_⟩
  · intro q m h
    have hne := mapSize_key_ne_empty m _ h
    simp only [map_adjust, if_neg hne, h]
    constructor <;> simp
  · intro q m h
    have hne := mapSize_key_ne_empty m _ h
    simp only [map_adjust, if_neg hne, h]
    constructor <;> simp
  · intro q w m h
    have hne := mapSize_key_ne_empty m _ h
    simp only [map_adjust, if_neg hne, h]
    simp
  · intro q w m h
    simp only [map_adjust, h]
    split_ifs <;> rfl
  · intro q h
    unfold ratTrunc
    rw [if_neg (not_lt.mpr h), rat_floor_eq_intFloor]
  · intro q h
    unfold ratTrunc
    rw [if_pos h, rat_floor_eq_intFloor, Int.floor_neg, neg_neg]

theorem claim_C3_witness :
    map_adjust 20 "humains" (some "Vertigo") = (20 : ℚ) * (105 / 100) ∧
    map_adjust 20 "zombies" (some "Vertigo") = (20 : ℚ) * (95 / 100) :=
  claim_C3_map_weighting.1 20 "Vertigo" (by decide)

end RankedBot

namespace RankedBot

/-- A player row stamped with season 2 (as after one season reset). -/
def pSeason2 : PlayerRec where
  discord_id := 1
  minecraft_name := "alice"
  mmr := 1000
  wins_humain := 0
  wins_zombie := 0
  losses := 0
  kills_zombie := 0
  kills_humain := 0
  assists := 0
  dmg_dealt := 0
  survival_time_best := 0
  survival_time_avg := 0
  last_change := 0
  season_id := 2
  active_ranked := 1

/-- A database as it stands right after a season reset. -/
def dbAfterReset : DB where
  players := [pSeason2]
  matches' := []
  match_players := []

/-- C5 (code behavior at the failing input) — with the global season at 2,
a fresh registration is created with MMR 1000 but season_id 1 (the schema
default), not the current season. -/
theorem claim_C5_registration_default :
    current_season dbAfterReset = 2 ∧
    ((upsert_player dbAfterReset 2 "bob").1.players.map
        (fun p => (p.minecraft_name, p.mmr, p.season_id))) =
      [("alice", 1000, 2), ("bob", 1000, 1)] :=
  ⟨by decide, by decide⟩

/-- C6: after a season reset every existing player has MMR 1000, last delta 0
and all cumulative counters 0, carries season_id = previous maximum + 1
(previous maximum defaulting to 1 when no players exist), and keeps
identity, display name and the ranked-participation flag. -/
theorem claim_C6_resetseason (db : DB)
    (hseason : ∀ p ∈ db.players, 1 ≤ p.season_id) :
    (∀ q ∈ (resetseason db).1.players,
        q.mmr = 1000 ∧ q.last_change = 0 ∧ q.wins_humain = 0 ∧ q.wins_zombie = 0 ∧
        q.losses = 0 ∧ q.kills_zombie = 0 ∧ q.kills_humain = 0 ∧ q.assists = 0 ∧
        q.dmg_dealt = 0 ∧ q.survival_time_best = 0 ∧ q.survival_time_avg = 0 ∧
        q.season_id = current_season db + 1) ∧
    (∀ p ∈ db.players, ∃ q ∈ (resetseason db).1.players,
        q.discord_id = p.discord_id ∧ q.minecraft_name = p.minecraft_name ∧
        q.active_ranked = p.active_ranked) ∧
    (db.players = [] → current_season db = 1) ∧
    (∀ p ∈ db.players, p.season_id ≤ current_season db) ∧
    (db.players ≠ [] → current_season db ∈ db.players.map PlayerRec.season_id) ∧
    (resetseason db).2 = current_season db + 1 := by
  have hub : ∀ {m : Int}, (db.players.map PlayerRec.season_id).max? = some m →
      ∀ x ∈ db.players.map PlayerRec.season_id, x ≤ m := by
    intro m hm
    exact (List.max?_le_iff (fun a b c => max_le_iff) hm).mp le_rfl
  have hmem : ∀ {m : Int}, (db.players.map PlayerRec.season_id).max? = some m →
      m ∈ db.players.map PlayerRec.season_id := by
    intro m hm
    exact List.max?_mem (fun a b => max_choice a b) hm
  refine ⟨?_, ?_, ?_, ?_, ?_, rfl⟩
  · intro q hq
    simp only [resetseason] at hq
    obtain ⟨p, hp, rfl⟩ := List.mem_map.mp hq
    simp
  · intro p hp
    exact ⟨_, List.mem_map_of_mem _ hp, rfl, rfl, rfl⟩
  · intro h
    unfold current_season
    rw [h]
    rfl
  · intro p hp
    unfold current_season
    rcases hm : (db.players.map PlayerRec.season_id).max? with _ | m
    · rw [List.max?_eq_none_iff, List.map_eq_nil_iff] at hm
      rw [hm] at hp
      cases hp
    · simp only [hm]
      have h1 : p.season_id ≤ m := hub hm _ (List.mem_map_of_mem _ hp)
      have h2 : 1 ≤ m := by
        obtain ⟨r, hr, hrm⟩ := List.mem_map.mp (hmem hm)
        rw [← hrm]
        exact hseason r hr
      rw [if_neg (by omega)]
      exact h1
  · intro hne
    unfold current_season
    rcases hm : (db.players.map PlayerRec.season_id).max? with _ | m
    · rw [List.max?_eq_none_iff, List.map_eq_nil_iff] at hm
      exact absurd hm hne
    · simp only [hm]
      have h2 : 1 ≤ m := by
        obtain ⟨r, hr, hrm⟩ := List.mem_map.mp (hmem hm)
        rw [← hrm]
        exact hseason r hr
      rw [if_neg (by omega)]
      exact hmem hm

/-- A one-player database used to instantiate the settlement theorems. -/
def pAliceActive : PlayerRec where
  discord_id := 1
  minecraft_name := "alice"
  mmr := 1200
  wins_humain := 2
  wins_zombie := 1
  losses := 3
  kills_zombie := 4
  kills_humain := 5
  assists := 6
  dmg_dealt := 7
  survival_time_best := 0
  survival_time_avg := 0
  last_change := -2
  season_id := 1
  active_ranked := 1

def dbOne : DB where
  players := [pAliceActive]
  matches' := []
  match_players := []

theorem claim_C6_witness :
    ((resetseason dbOne).1.players.map
        (fun p => (p.minecraft_name, p.mmr, p.last_change, p.season_id, p.active_ranked)) =
      [("alice", 1000, 0, 2, 1)]) ∧
    (resetseason dbOne).2 = current_season dbOne + 1 :=
  ⟨by decide, (claim_C6_resetseason dbOne (by decide)).2.2.2.2.2⟩

end RankedBot

namespace RankedBot

/-- A row found by `name_to_data` is a row of the table carrying that name. -/
theorem name_to_data_mem {ps : List PlayerRec} {n : String} {p : PlayerRec}
    (h : name_to_data ps n = some p) : p ∈ ps ∧ p.minecraft_name = n := by
  unfold name_to_data at h
  refine ⟨List.mem_reverse.mp (List.mem_of_find?_eq_some h), ?_⟩
  simpa using List.find?_some h

/-- The settlement loop is the identity when no participant name resolves. -/
theorem foldl_finalize_skip {snapshot : List PlayerRec}
    {roles : List (String × String)} {kills dmg : List (String × Int)}
    {sc : Option (List String)} {mp : Option String} {winner : String} {mid : Nat}
    (ps : List String) (acc : DB × List Outcome)
    (h : ∀ n ∈ ps, name_to_data snapshot n = none) :
    ps.foldl (finalize_step snapshot roles kills dmg sc mp winner mid) acc = acc := by
  induction ps generalizing acc with
  | nil => rfl
  | cons a t ih =>
    rw [List.foldl_cons]
    have ha : name_to_data snapshot a = none := h a (List.mem_cons_self a t)
    rw [show finalize_step snapshot roles kills dmg sc mp winner mid acc a = acc from by
      simp only [finalize_step, ha]]
    exact ih _ (fun n hn => h n (List.mem_cons_of_mem _ hn))

/-- C7: a finalize call whose participants all fail to resolve (including the
empty list) still creates exactly one match row with the computed winner
(defenders win iff some participant is assigned the human-defender role),
skips the unresolvable names silently, changes no player and no
participation row, and returns an empty settlement summary. -/
theorem claim_C7_empty_settlement (db : DB) (players : List String)
    (roles : List (String × String)) (kills dmg : List (String × Int))
    (sc : Option (List String)) (mp : Option String)
    (hroles : ∀ pr ∈ roles, pr.1 ∈ players)
    (hnone : ∀ n ∈ players, name_to_data db.players n = none) :
    ((∃ pr ∈ roles, pr.1 ∈ players ∧ pr.2 = "humain") →
      (finalize_match db players roles kills dmg sc mp).1.matches' =
        db.matches' ++ [{ match_id := db.matches'.length + 1, winner := "humains" }]) ∧
    ((¬ ∃ pr ∈ roles, pr.1 ∈ players ∧ pr.2 = "humain") →
      (finalize_match db players roles kills dmg sc mp).1.matches' =
        db.matches' ++ [{ match_id := db.matches'.length + 1, winner := "zombies" }]) ∧
    (finalize_match db players roles kills dmg sc mp).1.players = db.players ∧
    (finalize_match db players roles kills dmg sc mp).1.match_players =
      db.match_players ∧
    (finalize_match db players roles kills dmg sc mp).2 = [] := by
  have hw : ((roles.map Prod.snd).any (fun r => r == "humain") = true) ↔
      (∃ pr ∈ roles, pr.1 ∈ players ∧ pr.2 = "humain") := by
    rw [List.any_eq_true]
    constructor
    · rintro ⟨r, hr, hrh⟩
      obtain ⟨pr, hpr, rfl⟩ := List.mem_map.mp hr
      exact ⟨pr, hpr, hroles pr hpr, by simpa using hrh⟩
    · rintro ⟨pr, hpr, _, heq⟩
      exact ⟨pr.2, List.mem_map_of_mem _ hpr, by simpa using heq⟩
  simp only [finalize_match]
  rw [foldl_finalize_skip players _ hnone]
  refine ⟨?_, ?_, rfl, rfl, rfl⟩
  · intro hc
    rw [if_pos (hw.mpr hc)]
  · intro hc
    rw [if_neg (fun hb => hc (hw.mp hb))]

theorem claim_C7_witness :
    ((∃ pr ∈ [("ghost", "humain")], pr.1 ∈ ["ghost"] ∧ pr.2 = "humain") →
      (finalize_match dbOne ["ghost"] [("ghost", "humain")] [] [] none none).1.matches' =
        dbOne.matches' ++ [{ match_id := dbOne.matches'.length + 1, winner := "humains" }]) ∧
    ((¬ ∃ pr ∈ [("ghost", "humain")], pr.1 ∈ ["ghost"] ∧ pr.2 = "humain") →
      (finalize_match dbOne ["ghost"] [("ghost", "humain")] [] [] none none).1.matches' =
        dbOne.matches' ++ [{ match_id := dbOne.matches'.length + 1, winner := "zombies" }]) ∧
    (finalize_match dbOne ["ghost"] [("ghost", "humain")] [] [] none none).1.players =
      dbOne.players ∧
    (finalize_match dbOne ["ghost"] [("ghost", "humain")] [] [] none none).1.match_players =
      dbOne.match_players ∧
    (finalize_match dbOne ["ghost"] [("ghost", "humain")] [] [] none none).2 = [] :=
  claim_C7_empty_settlement dbOne ["ghost"] [("ghost", "humain")] [] [] none none
    (by decide) (by decide)

end RankedBot

namespace RankedBot

theorem update_player_mem_of_ne {ps : List PlayerRec} {p : PlayerRec} {id0 : Int}
    (hne : p.discord_id ≠ id0) (hp : p ∈ ps)
    (c wh wz lo kz kh a d : Int) :
    p ∈ update_player ps id0 c wh wz lo kz kh a d := by
  unfold update_player
  exact List.mem_map.mpr ⟨p, hp, by simp [hne]⟩

/-- One settlement step never touches a row whose discord_id differs from
every active resolved participant, only appends match_players rows for
active resolved participants, and only appends to the summary. -/
theorem finalize_step_facts {snapshot : List PlayerRec}
    {roles : List (String × String)} {kills dmg : List (String × Int)}
    {sc : Option (List String)} {mp : Option String} {winner : String} {mid : Nat}
    {p : PlayerRec}
    (hid : ∀ (m : String) (q : PlayerRec), name_to_data snapshot m = some q →
      q.active_ranked ≠ 0 → q.discord_id ≠ p.discord_id)
    (acc : DB × List Outcome) (a : String) :
    (p ∈ acc.1.players →
      p ∈ (finalize_step snapshot roles kills dmg sc mp winner mid acc a).1.players) ∧
    (∀ row ∈ (finalize_step snapshot roles kills dmg sc mp winner mid acc a).1.match_players,
      row ∈ acc.1.match_players ∨ row.discord_id ≠ p.discord_id) ∧
    (∀ o ∈ acc.2, o ∈ (finalize_step snapshot roles kills dmg sc mp winner mid acc a).2) := by
  rcases hfind : name_to_data snapshot a with _ | q
  · simp only [finalize_step, hfind]
    exact ⟨id, fun row hr => Or.inl hr, fun o ho => ho⟩
  · simp only [finalize_step, hfind]
    by_cases hact : q.active_ranked = 0
    · rw [if_pos hact]
      exact ⟨id, fun row hr => Or.inl hr, fun o ho => List.mem_append_left _ ho⟩
    · rw [if_neg hact]
      have hq : q.discord_id ≠ p.discord_id := hid a q hfind hact
      refine ⟨?_, ?_, ?_⟩
      · intro hp
        exact update_player_mem_of_ne (fun h => hq h.symm) hp _ _ _ _ _ _ _ _
      · intro row hr
        rcases List.mem_append.mp hr with h | h
        · exact Or.inl h
        · right
          have hrow := List.mem_singleton.mp h
          rw [hrow]
          exact hq
      · intro o ho
        exact List.mem_append_left _ ho

end RankedBot

namespace RankedBot

/-- The settlement loop preserves an untouched player's row, adds no
match_players row for them, and only appends to the summary. -/
theorem foldl_finalize_preserve {snapshot : List PlayerRec}
    {roles : List (String × String)} {kills dmg : List (String × Int)}
    {sc : Option (List String)} {mp : Option String} {winner : String} {mid : Nat}
    {p : PlayerRec}
    (hid : ∀ (m : String) (q : PlayerRec), name_to_data snapshot m = some q →
      q.active_ranked ≠ 0 → q.discord_id ≠ p.discord_id)
    (ps : List String) :
    ∀ acc : DB × List Outcome,
    (p ∈ acc.1.players →
      p ∈ (ps.foldl (finalize_step snapshot roles kills dmg sc mp winner mid) acc).1.players) ∧
    (∀ row ∈ (ps.foldl (finalize_step snapshot roles kills dmg sc mp winner mid) acc).1.match_players,
      row ∈ acc.1.match_players ∨ row.discord_id ≠ p.discord_id) ∧
    (∀ o ∈ acc.2,
      o ∈ (ps.foldl (finalize_step snapshot roles kills dmg sc mp winner mid) acc).2) := by
  induction ps with
  | nil => exact fun acc => ⟨id, fun row hr => Or.inl hr, fun o ho => ho⟩
  | cons a t ih =>
    intro acc
    simp only [List.foldl_cons]
    obtain ⟨s1, s2, s3⟩ := finalize_step_facts hid acc a
    obtain ⟨i1, i2, i3⟩ :=
      ih (finalize_step snapshot roles kills dmg sc mp winner mid acc a)
    refine ⟨fun hp => i1 (s1 hp), ?_, fun o ho => i3 o (s3 o ho)⟩
    intro row hr
    rcases i2 row hr with h | h
    · exact s2 row h
    · exact Or.inr h

/-- Summary lines are only ever appended by the settlement loop. -/
theorem foldl_finalize_lines_mono {snapshot : List PlayerRec}
    {roles : List (String × String)} {kills dmg : List (String × Int)}
    {sc : Option (List String)} {mp : Option String} {winner : String} {mid : Nat}
    (ps : List String) :
    ∀ (acc : DB × List Outcome), ∀ o ∈ acc.2,
      o ∈ (ps.foldl (finalize_step snapshot roles kills dmg sc mp winner mid) acc).2 := by
  induction ps with
  | nil => exact fun acc o ho => ho
  | cons a t ih =>
    intro acc o ho
    simp only [List.foldl_cons]
    apply ih
    rcases hfind : name_to_data snapshot a with _ | q
    · simp only [finalize_step, hfind]
      exact ho
    · simp only [finalize_step, hfind]
      by_cases hact : q.active_ranked = 0
      · rw [if_pos hact]
        exact List.mem_append_left _ ho
      · rw [if_neg hact]
        exact List.mem_append_left _ ho

/-- A chill-mode participant gets a chill line in the settlement summary. -/
theorem foldl_finalize_chill_line {snapshot : List PlayerRec}
    {roles : List (String × String)} {kills dmg : List (String × Int)}
    {sc : Option (List String)} {mp : Option String} {winner : String} {mid : Nat}
    {p : PlayerRec} {n : String}
    (hp : name_to_data snapshot n = some p) (ha : p.active_ranked = 0)
    (ps : List String) :
    ∀ acc : DB × List Outcome, n ∈ ps →
      Outcome.chill n ∈
        (ps.foldl (finalize_step snapshot roles kills dmg sc mp winner mid) acc).2 := by
  induction ps with
  | nil => intro acc h; cases h
  | cons a t ih =>
    intro acc hmem
    simp only [List.foldl_cons]
    rcases List.mem_cons.mp hmem with h | hmem'
    · subst h
      apply foldl_finalize_lines_mono t
      have hstep : (finalize_step snapshot roles kills dmg sc mp winner mid acc n).2 =
          acc.2 ++ [Outcome.chill n] := by
        simp only [finalize_step, hp, if_pos ha]
      rw [hstep]
      exact List.mem_append_right _ (by simp)
    · exact ih _ hmem'

/-- C4 (amended): a participant whose record exists with the
ranked-participation flag false gets no MMR change and no counter change,
gets NO participation row, and is noted in the settlement summary as a
chill-mode no-op. -/
theorem claim_C4_chill_mode (db : DB) (players : List String)
    (roles : List (String × String)) (kills dmg : List (String × Int))
    (sc : Option (List String)) (mp : Option String) (n : String) (p : PlayerRec)
    (hnodup : (db.players.map PlayerRec.discord_id).Nodup)
    (hn : n ∈ players) (hp : name_to_data db.players n = some p)
    (ha : p.active_ranked = 0) :
    p ∈ (finalize_match db players roles kills dmg sc mp).1.players ∧
    (∀ row ∈ (finalize_match db players roles kills dmg sc mp).1.match_players,
      row ∈ db.match_players ∨ row.discord_id ≠ p.discord_id) ∧
    Outcome.chill n ∈ (finalize_match db players roles kills dmg sc mp).2 := by
  have hid : ∀ (m : String) (q : PlayerRec), name_to_data db.players m = some q →
      q.active_ranked ≠ 0 → q.discord_id ≠ p.discord_id := by
    intro m q hq hqa heq
    obtain ⟨hqmem, _⟩ := name_to_data_mem hq
    obtain ⟨hpmem, _⟩ := name_to_data_mem hp
    have hqp : q = p := List.inj_on_of_nodup_map hnodup hqmem hpmem heq
    rw [hqp] at hqa
    exact hqa ha
  simp only [finalize_match]
  obtain ⟨f1, f2, f3⟩ := foldl_finalize_preserve hid players _
  refine ⟨f1 (name_to_data_mem hp).1, ?_, ?_⟩
  · intro row hr
    exact f2 row hr
  · exact foldl_finalize_chill_line hp ha players _ hn

end RankedBot

namespace RankedBot

/-- The one-player database with the player in chill mode. -/
def pAliceChill : PlayerRec := { pAliceActive with active_ranked := 0 }

def dbChill : DB where
  players := [pAliceChill]
  matches' := []
  match_players := []

/-- C4 counterexample: a chill-mode participant produces NO match_players
row — the claimed zero-delta participation record does not exist; the
participant is only noted in the textual summary. -/
theorem claim_C4_counterexample :
    (finalize_match dbChill ["alice"] [("alice", "infected")] [("alice", 2)]
        [("alice", 40)] none none).1.match_players = [] ∧
    (finalize_match dbChill ["alice"] [("alice", "infected")] [("alice", 2)]
        [("alice", 40)] none none).2 = [Outcome.chill "alice"] ∧
    (finalize_match dbChill ["alice"] [("alice", "infected")] [("alice", 2)]
        [("alice", 40)] none none).1.players = [pAliceChill] :=
  ⟨by decide, by decide, by decide⟩

theorem claim_C4_witness :
    pAliceChill ∈ (finalize_match dbChill ["alice"] [("alice", "infected")]
      [("alice", 2)] [("alice", 40)] none none).1.players ∧
    (∀ row ∈ (finalize_match dbChill ["alice"] [("alice", "infected")]
        [("alice", 2)] [("alice", 40)] none none).1.match_players,
      row ∈ dbChill.match_players ∨ row.discord_id ≠ pAliceChill.discord_id) ∧
    Outcome.chill "alice" ∈ (finalize_match dbChill ["alice"] [("alice", "infected")]
      [("alice", 2)] [("alice", 40)] none none).2 :=
  claim_C4_chill_mode dbChill ["alice"] [("alice", "infected")] [("alice", 2)]
    [("alice", 40)] none none "alice" pAliceChill
    (by decide) (by decide) (by decide) (by decide)

end RankedBot
